import Mathlib

/-!
Shallow embedding of the core of the twisty (TwistyVoice) repository:
customer segmentation, promotion eligibility and scoring
(src/core/promotion_engine.py), the campaign scheduler
(src/core/scheduler.py), conversation/response tracking
(src/core/conversation_tracker.py, src/api/routes.py) and the
appointment booking handler (src/core/booking_handler.py).

Conventions of the embedding:
* Timestamps are integers counting minutes; a calendar day is 1440
  minutes, and a day number d has weekday d % 7 with 0 = Monday
  (matching Python datetime.weekday()).  Python timedelta .days floors,
  so day differences are Int.fdiv by 1440.
* Nullable database columns become Option values.  Python truthiness of
  such a value (None / 0 / 0.0 falsy) is modelled explicitly at every
  use site.  JSON-encoded text columns holding lists become
  Option (List String): none stands for NULL or the empty string, and
  some xs stands for a non-empty JSON string decoding to xs (so
  some [] is the truthy string representing an empty list).
* Monetary amounts and scores are rationals (the source uses floats;
  none of the verified claims depends on float rounding).
* Calls into external services (the Square backend, the Twilio
  gateway) are passed in as explicit Except / Option parameters: an
  Except.error stands for a raised exception at that call site.
-/

/-! ## Data model (src/models/database.py, decoded in-memory form) -/

structure Customer where
  id : Nat
  total_visits : Nat
  total_spent : ℚ
  last_visit_date : Option ℤ
  preferred_services : Option (List String)
  opt_out_calls : Bool
  preferred_contact_time : Option String
  deriving DecidableEq, Repr

structure Promotion where
  id : Nat
  name : String
  discount_percentage : Option ℚ
  discount_amount : Option ℚ
  target_services : Option (List String)
  target_customer_segments : Option (List String)
  min_days_since_visit : Option ℤ
  max_days_since_visit : Option ℤ
  start_date : Option ℤ
  end_date : Option ℤ
  max_uses : Option Nat
  current_uses : Nat
  is_active : Bool
  deriving DecidableEq, Repr

structure Conversation where
  id : Nat
  customer_id : Nat
  promotion_id : Option Nat
  call_type : String
  call_status : String
  customer_response : Option String
  notes : Option String
  follow_up_required : Bool
  follow_up_date : Option ℤ
  twilio_call_sid : Option String
  deriving DecidableEq, Repr

structure Booking where
  customer_id : Nat
  conversation_id : Option Nat
  external_booking_id : String
  appointment_datetime : ℤ
  service_name : String
  stylist_name : String
  duration_minutes : Nat
  price : ℚ
  status : String
  created_via : String
  deriving DecidableEq, Repr

/-- Number of whole days between two minute timestamps, later minus
earlier, flooring like Python timedelta.days. -/
def daysBetween (later earlier : ℤ) : ℤ :=
  Int.fdiv (later - earlier) 1440

/-- Python `x or d` on an optional integer column: the default applies
when the column is NULL or zero. -/
def pyOrNat (x : Option Nat) (d : Nat) : Nat :=
  match x with
  | some v => if v ≠ 0 then v else d
  | none => d

/-! ## Customer segmentation (PromotionEngine.analyze_customer_segment) -/

def NEW_CUSTOMER : String := "new_customer"

def REGULAR_CUSTOMER : String := "regular_customer"

def VIP_CUSTOMER : String := "vip_customer"

def LAPSED_CUSTOMER : String := "lapsed_customer"

def PRICE_SENSITIVE : String := "price_sensitive"

def SERVICE_SPECIFIC : String := "service_specific"

/-- Embeds PromotionEngine.analyze_customer_segment; `now` is the
current time in minutes (datetime.utcnow()). -/
def analyze_customer_segment (now : ℤ) (c : Customer) : List String :=
  let s1 :=
    if c.total_visits = 0 then [NEW_CUSTOMER]
    else if 20 ≤ c.total_visits then [VIP_CUSTOMER]
    else if 5 ≤ c.total_visits then [REGULAR_CUSTOMER]
    else []
  let s2 :=
    match c.last_visit_date with
    | some lv => if 90 < daysBetween now lv then [LAPSED_CUSTOMER] else []
    | none => []
  let s3 :=
    if 0 < c.total_visits ∧ c.total_spent / (c.total_visits : ℚ) < 50 then
      [PRICE_SENSITIVE]
    else []
  let s4 := if c.preferred_services.isSome then [SERVICE_SPECIFIC] else []
  s1 ++ s2 ++ s3 ++ s4

/-! ## Promotion scoring (PromotionEngine._calculate_promotion_score) -/

/-- Case-insensitive substring helper: matching on lists of characters,
the pattern is compared against the front of the text. -/
def matchesFront : List Char → List Char → Bool
  | [], _ => true
  | _ :: _, [] => false
  | a :: as, b :: bs => a == b && matchesFront as bs

/-- Occurrence of a pattern anywhere in a character list (Python `in`
on strings). -/
def containsChars (pat : List Char) : List Char → Bool
  | [] => matchesFront pat []
  | b :: bs => matchesFront pat (b :: bs) || containsChars pat bs

/-- Python substring test `pat in s`. -/
def strContains (s pat : String) : Bool :=
  containsChars pat.toList s.toList

/-- Embeds PromotionEngine._calculate_promotion_score.  Python float
truthiness (`if promotion.discount_percentage:`) skips the term when
the column is NULL or 0.0; the saturation penalty divides by
`max(promotion.max_uses or 1000, 1)`. -/
def calculate_promotion_score (now : ℤ) (c : Customer) (p : Promotion) : ℚ :=
  let customer_segments := analyze_customer_segment now c
  let sDiscount :=
    (match p.discount_percentage with
     | some v => if v ≠ 0 then v * 2 else 0
     | none => 0)
    + (match p.discount_amount with
       | some v => if v ≠ 0 then v / 10 else 0
       | none => 0)
  let sSegments :=
    match p.target_customer_segments with
    | some targets =>
        20 * ((customer_segments.filter (fun s => targets.contains s)).length : ℚ)
    | none => 0
  let sServices :=
    match p.target_services, c.preferred_services with
    | some targets, some services =>
        ((services.filter (fun s => targets.contains s)).length : ℚ) * 15
    | _, _ => 0
  let usageRate : ℚ :=
    (p.current_uses : ℚ) / ((max (pyOrNat p.max_uses 1000) 1 : Nat) : ℚ)
  let sUrgency :=
    match p.end_date with
    | some ed => if daysBetween ed now ≤ 7 then (25 : ℚ) else 0
    | none => 0
  let sWinBack :=
    if LAPSED_CUSTOMER ∈ customer_segments ∧
        (strContains p.name.toLower "comeback" = true ∨
         strContains p.name.toLower "welcome back" = true) then (30 : ℚ)
    else 0
  sDiscount + sSegments + sServices - usageRate * 10 + sUrgency + sWinBack

/-- Modelled from the spec: the score formula of spec section 4.2 with
the saturation penalty written as `10 * (current_uses / max(max_uses,
1000))`, i.e. the divisor floored at 1000.  All other terms follow the
source so that only the penalty term is under comparison. -/
def calculate_promotion_score_specC4 (now : ℤ) (c : Customer) (p : Promotion) : ℚ :=
  let customer_segments := analyze_customer_segment now c
  let sDiscount :=
    (match p.discount_percentage with
     | some v => if v ≠ 0 then v * 2 else 0
     | none => 0)
    + (match p.discount_amount with
       | some v => if v ≠ 0 then v / 10 else 0
       | none => 0)
  let sSegments :=
    match p.target_customer_segments with
    | some targets =>
        20 * ((customer_segments.filter (fun s => targets.contains s)).length : ℚ)
    | none => 0
  let sServices :=
    match p.target_services, c.preferred_services with
    | some targets, some services =>
        ((services.filter (fun s => targets.contains s)).length : ℚ) * 15
    | _, _ => 0
  let usageRate : ℚ :=
    (p.current_uses : ℚ) / ((max (pyOrNat p.max_uses 1000) 1000 : Nat) : ℚ)
  let sUrgency :=
    match p.end_date with
    | some ed => if daysBetween ed now ≤ 7 then (25 : ℚ) else 0
    | none => 0
  let sWinBack :=
    if LAPSED_CUSTOMER ∈ customer_segments ∧
        (strContains p.name.toLower "comeback" = true ∨
         strContains p.name.toLower "welcome back" = true) then (30 : ℚ)
    else 0
  sDiscount + sSegments + sServices - usageRate * 10 + sUrgency + sWinBack

/-- Concrete customer for counterexamples: three visits, nothing else. -/
def cEx : Customer :=
  { id := 1, total_visits := 3, total_spent := 0, last_visit_date := none,
    preferred_services := none, opt_out_calls := false,
    preferred_contact_time := none }

/-- Concrete promotion whose cap is 5 and fully used. -/
def pEx : Promotion :=
  { id := 1, name := "summer", discount_percentage := none,
    discount_amount := none, target_services := none,
    target_customer_segments := none, min_days_since_visit := none,
    max_days_since_visit := none, start_date := none, end_date := none,
    max_uses := some 5, current_uses := 5, is_active := true }

/-! ## Promotion eligibility (PromotionEngine._is_customer_eligible) -/

/-- Embeds the prior-conversation query of
PromotionEngine._is_customer_eligible: a Conversation of this customer
against this promotion whose response is booked or interested. -/
def priorEngagedConversation (convs : List Conversation) (c : Customer)
    (p : Promotion) : Bool :=
  convs.any fun cv =>
    decide (cv.customer_id = c.id ∧ cv.promotion_id = some p.id ∧
      (cv.customer_response = some "booked" ∨
       cv.customer_response = some "interested"))

/-- Usage-cap guard of _is_customer_eligible: Python
`if promotion.max_uses and promotion.current_uses >= promotion.max_uses`,
so a NULL or zero cap disables the check. -/
def capBlocked (p : Promotion) : Bool :=
  match p.max_uses with
  | some m => decide (m ≠ 0 ∧ m ≤ p.current_uses)
  | none => false

/-- Days-since-last-visit guard of _is_customer_eligible; the min and
max bounds use integer truthiness, so a zero bound is unconstrained. -/
def daysBlocked (now : ℤ) (c : Customer) (p : Promotion) : Bool :=
  match c.last_visit_date with
  | some lv =>
      let days := daysBetween now lv
      (match p.min_days_since_visit with
       | some k => decide (k ≠ 0 ∧ days < k)
       | none => false) ||
      (match p.max_days_since_visit with
       | some k => decide (k ≠ 0 ∧ k < days)
       | none => false)
  | none => false

/-- Segment-targeting guard of _is_customer_eligible: with a truthy
target list, the customer must match at least one target segment. -/
def segmentsBlocked (now : ℤ) (c : Customer) (p : Promotion) : Bool :=
  match p.target_customer_segments with
  | some targets =>
      ! (analyze_customer_segment now c).any fun s => targets.contains s
  | none => false

/-- Service-targeting guard of _is_customer_eligible: applies only when
both the promotion target list and the customer preference list are
truthy. -/
def servicesBlocked (c : Customer) (p : Promotion) : Bool :=
  match p.target_services, c.preferred_services with
  | some targets, some services =>
      ! services.any fun s => targets.contains s
  | _, _ => false

/-- Embeds PromotionEngine._is_customer_eligible as the chain of
early-return rejection checks of the source. -/
def is_customer_eligible (now : ℤ) (convs : List Conversation)
    (c : Customer) (p : Promotion) : Bool :=
  if capBlocked p then false
  else if priorEngagedConversation convs c p then false
  else if daysBlocked now c p then false
  else if segmentsBlocked now c p then false
  else if servicesBlocked c p then false
  else true

/-! ## Best-promotion selection (PromotionEngine.select_best_promotion)

The source scores every eligible promotion and runs the Python list
sort with key = score and reverse = True — a stable descending sort —
then takes the first element.  `insertDescBy`/`sortDescBy` embed that
stable descending sort. -/

/-- Stable descending insertion: the new element goes in front of the
first element whose score is not strictly greater, so elements that
came earlier in the original list stay in front on ties, exactly as
Python's stable sort with reverse = True. -/
def insertDescBy (score : Promotion → ℚ) (a : Promotion) :
    List Promotion → List Promotion
  | [] => [a]
  | b :: bs =>
      if score a < score b then b :: insertDescBy score a bs
      else a :: b :: bs

/-- Stable descending sort by score (Python list.sort with key = score
and reverse = True). -/
def sortDescBy (score : Promotion → ℚ) : List Promotion → List Promotion
  | [] => []
  | a :: l => insertDescBy score a (sortDescBy score l)

/-- Embeds PromotionEngine.select_best_promotion on an explicit list of
eligible promotions (`if not eligible_promotions: return None` also
treats the empty list as absent). -/
def select_best_promotion (now : ℤ) (c : Customer)
    (eligible : List Promotion) : Option Promotion :=
  if eligible.isEmpty then none
  else (sortDescBy (calculate_promotion_score now c) eligible).head?

/-- Modelled from the spec wording of selectBest: the earliest-listed
promotion whose score is maximal over the whole list (first wins on
ties); none on the empty list. -/
def selectBestSpec (score : Promotion → ℚ) (l : List Promotion) :
    Option Promotion :=
  l.find? fun p => l.all fun q => decide (score q ≤ score p)

/-- Fold form of first-maximum selection: the bridge between the head
of the stable descending sort and the find?-based spec reading. -/
def firstMaxFold (score : Promotion → ℚ) : List Promotion → Option Promotion
  | [] => none
  | a :: l =>
      match firstMaxFold score l with
      | none => some a
      | some b => if score a < score b then some b else some a

/-! ## Conversation tracking (src/core/conversation_tracker.py) -/

/-- Embeds ConversationTracker.log_call_initiated: the freshly created
Conversation record (the database-assigned id is irrelevant to the
verified claims and is fixed at 0). -/
def log_call_initiated (customer_id : Nat) (promotion_id : Option Nat)
    (call_type : String) (twilio_call_sid : Option String) : Conversation :=
  { id := 0, customer_id := customer_id, promotion_id := promotion_id,
    call_type := call_type, call_status := "initiated",
    customer_response := none, notes := none, follow_up_required := false,
    follow_up_date := none, twilio_call_sid := twilio_call_sid }

/-- Embeds ConversationTracker._update_customer_preferences restricted
to calls with notes = None — the only form reached from the webhook
response path (log_customer_response is invoked there without notes),
where the source skips the whole notes-keyword branch. -/
def update_customer_preferences (c : Customer) (response : String) : Customer :=
  if response = "not_interested" ∨ response = "remove_from_list" then
    { c with opt_out_calls := true }
  else c

/-- Embeds ConversationTracker.log_customer_response as called from the
gather webhook (notes, follow-up flag and follow-up date take their
default arguments None / False / None): the conversation is overwritten
with the response and those defaults, then the customer preferences are
updated. -/
def log_customer_response (conv : Conversation) (c : Customer)
    (response : String) : Conversation × Customer :=
  ({ conv with
      customer_response := some response,
      notes := none,
      follow_up_required := false,
      follow_up_date := none },
   update_customer_preferences c response)

/-! ## Gather webhook (routes.handle_gather_response) -/

/-- Digit-to-outcome table of handle_gather_response
(`response_map.get(digits, "unknown")`). -/
def responseMap (digits : String) : String :=
  if digits = "1" then "booked"
  else if digits = "2" then "interested"
  else if digits = "3" then "callback"
  else if digits = "9" then "remove_from_list"
  else "unknown"

/-- Embeds the state change of routes.handle_gather_response on the
matched conversation and its customer: map the digits through the
outcome table and log the response. -/
def handle_gather_response (digits : String) (conv : Conversation)
    (c : Customer) : Conversation × Customer :=
  log_customer_response conv c (responseMap digits)

/-! ## Scheduler (src/core/scheduler.py) -/

/-- Embeds TwistyScheduler._is_appropriate_call_time as a function of
the current hour and the configuration (RESPECT_DND_HOURS,
DND_START_HOUR, DND_END_HOUR, business-hours start/end hour). -/
def is_appropriate_call_time (respectDnd : Bool)
    (dndStart dndEnd bhStart bhEnd hour : Nat) : Bool :=
  if respectDnd && (decide (dndStart ≤ hour) || decide (hour < dndEnd)) then
    false
  else decide (bhStart ≤ hour) && decide (hour < bhEnd)

/-- Modelled from the spec: membership of an hour in the configured
quiet-hours band, which may wrap midnight (band from quiet-start up to
quiet-end, wrapping when start exceeds end). -/
def inQuietBand (dndStart dndEnd hour : Nat) : Bool :=
  if dndStart ≤ dndEnd then decide (dndStart ≤ hour) && decide (hour < dndEnd)
  else decide (dndStart ≤ hour) || decide (hour < dndEnd)

/-- Embeds TwistyScheduler._make_follow_up_call.  Inputs that the
source obtains from the environment are explicit: `customer` is the
looked-up Customer row (none when absent), `appropriate` the value of
_is_appropriate_call_time, `callSid` the result of the gateway call
(none for a falsy sid or a raised gateway error).  The result is the
updated original conversation together with the newly created follow-up
conversation, if any. -/
def make_follow_up_call (now : ℤ) (appropriate : Bool)
    (callSid : Option String) (customer : Option Customer)
    (conv : Conversation) : Conversation × Option Conversation :=
  match customer with
  | none => (conv, none)
  | some c =>
      if c.opt_out_calls then (conv, none)
      else if !appropriate then
        ({ conv with follow_up_date := some (now + 120) }, none)
      else
        let newConv := log_call_initiated c.id conv.promotion_id "follow_up" none
        match callSid with
        | some sid =>
            ({ conv with follow_up_required := false },
             some { newConv with twilio_call_sid := some sid })
        | none => (conv, some newConv)

/-- Embeds TwistyScheduler._execute_promotional_campaign: one pass over
the pooled customers, creating one Conversation per customer for whom
select_best_promotion returns a promotion and skipping the others
(gateway failures are logged and do not remove the already created
conversation). -/
def execute_promotional_campaign (now : ℤ)
    (eligiblePromos : Customer → List Promotion)
    (customers : List Customer) : List Conversation :=
  customers.filterMap fun c =>
    (select_best_promotion now c (eligiblePromos c)).map fun p =>
      log_call_initiated c.id (some p.id) "promotional" none

/-- Embeds TwistyScheduler.run_promotional_campaigns: abort when the
daily cap is reached, otherwise call at most
min(10, MAX_CALLS_PER_DAY - today_calls) of the eligible customers.
The returned list holds the Conversations created by the run. -/
def run_promotional_campaigns (now : ℤ) (todayCalls maxCallsPerDay : Nat)
    (eligibleCustomers : List Customer)
    (eligiblePromos : Customer → List Promotion) : List Conversation :=
  if maxCallsPerDay ≤ todayCalls then []
  else if eligibleCustomers.isEmpty then []
  else
    let remaining := maxCallsPerDay - todayCalls
    let sessionLimit := min 10 remaining
    execute_promotional_campaign now eligiblePromos
      (eligibleCustomers.take sessionLimit)

/-! ## Booking handler (src/core/booking_handler.py) -/

/-- Catalog service as seen by book_appointment: price_money carries
the amount in cents when the Square price dictionary is truthy. -/
structure Service where
  id : String
  name : String
  price_money : Option ℚ
  deriving DecidableEq, Repr

/-- Appointment segment of a Square booking, as consumed by
BookingHandler._has_conflict: start in minutes, duration defaulting to
60 via .get, and an optional team member (stylist). -/
structure ApptSegment where
  start_at : ℤ
  duration_minutes : Option Nat
  team_member_id : Option String
  deriving DecidableEq, Repr

structure SquareBooking where
  appointment_segments : List ApptSegment
  deriving DecidableEq, Repr

/-- Candidate appointment slot (BookingHandler.TimeSlot): start in
minutes and duration; the end time is start plus duration. -/
structure TimeSlot where
  start_time : ℤ
  duration_minutes : Nat
  deriving DecidableEq, Repr

def TimeSlot.end_time (s : TimeSlot) : ℤ :=
  s.start_time + (s.duration_minutes : ℤ)

/-- Embeds BookingHandler._has_conflict: a slot conflicts when some
segment of some existing booking overlaps it in time
(slot.start < booking_end and slot.end > booking_start); with a
requested stylist only bookings of that same stylist count, without one
any overlap counts. -/
def has_conflict (slot : TimeSlot) (existing : List SquareBooking)
    (stylist_id : Option String) : Bool :=
  existing.any fun b =>
    b.appointment_segments.any fun seg =>
      let bookingStart := seg.start_at
      let bookingEnd := bookingStart + ((seg.duration_minutes.getD 60 : Nat) : ℤ)
      decide (slot.start_time < bookingEnd ∧ bookingStart < slot.end_time) &&
      (match stylist_id with
       | some sid => seg.team_member_id == some sid
       | none => true)

/-- Start offsets of the slots of one business day: from the opening
minute in steps of 30 while the slot still fits before closing.  The
fuel argument makes the while-loop of _generate_potential_slots
structurally recursive; closeMin + 1 steps always suffice. -/
def slotStartsFuel : Nat → Nat → Nat → Nat → List Nat
  | 0, _, _, _ => []
  | fuel + 1, t, closeMin, dur =>
      if t + dur ≤ closeMin then t :: slotStartsFuel fuel (t + 30) closeMin dur
      else []

/-- Embeds BookingHandler._generate_potential_slots: iterate the days
from the start date to the end date, skip weekends (weekday ≥ 5 with
day % 7 and 0 = Monday), and step through each remaining day in
30-minute increments between the business opening and closing minutes,
keeping a slot only when it ends by closing time. -/
def generate_potential_slots (startDay endDay openMin closeMin dur : Nat) :
    List TimeSlot :=
  (((List.range (endDay + 1 - startDay)).map fun i => startDay + i).filter
      fun day => day % 7 < 5).map
    (fun day =>
      (slotStartsFuel (closeMin + 1) openMin closeMin dur).map fun t =>
        ({ start_time := ((day * 1440 + t : Nat) : ℤ),
           duration_minutes := dur } : TimeSlot))
  |>.flatten

/-- Embeds BookingHandler.get_available_slots: the Square backend query
result is an explicit Except parameter (Except.error for a raised
exception, which the source catches and turns into the empty list);
otherwise the generated candidates minus the conflicting ones. -/
def get_available_slots (backend : Except Unit (List SquareBooking))
    (service_duration startDay endDay openMin closeMin : Nat)
    (stylist_id : Option String) : List TimeSlot :=
  match backend with
  | .error _ => []
  | .ok existing =>
      (generate_potential_slots startDay endDay openMin closeMin
        service_duration).filter
        fun slot => ! has_conflict slot existing stylist_id

/-- Local database state touched by book_appointment: the booking table
and the customer row being booked for. -/
structure DBState where
  bookings : List Booking
  customer : Customer
  deriving DecidableEq, Repr

/-- Service lookup loop of book_appointment: name defaults to
"Hair Service" and price to 0; the first catalog entry matching the
service id supplies the name and, when its price dictionary is truthy,
the price in dollars (cents / 100). -/
def findServiceInfo (services : List Service) (service_id : String) :
    String × ℚ :=
  match services.find? fun s => s.id == service_id with
  | none => ("Hair Service", 0)
  | some s =>
      (s.name,
       match s.price_money with
       | some amount => amount / 100
       | none => 0)

/-- Embeds BookingHandler.book_appointment.  The two external calls are
explicit parameters: `backend` is data_connector.create_booking
(Except.error for a raised exception, Except.ok none for a falsy
booking id) and `services` is data_connector.get_catalog_services.
On backend failure the source returns None before touching the
database; on success it creates the local Booking row, then updates the
customer visit count, total spend and last-visit date. -/
def book_appointment (backend : Except Unit (Option String))
    (services : Except Unit (List Service)) (service_id : String)
    (start_time : ℤ) (duration_minutes : Nat)
    (conversation_id : Option Nat) (st : DBState) :
    Option Booking × DBState :=
  match backend with
  | .error _ => (none, st)
  | .ok none => (none, st)
  | .ok (some booking_id) =>
      match services with
      | .error _ => (none, st)
      | .ok svcs =>
          let info := findServiceInfo svcs service_id
          let bk : Booking :=
            { customer_id := st.customer.id,
              conversation_id := conversation_id,
              external_booking_id := booking_id,
              appointment_datetime := start_time,
              service_name := info.1,
              stylist_name := "",
              duration_minutes := duration_minutes,
              price := info.2,
              status := "confirmed",
              created_via :=
                if conversation_id.isSome then "voice_call" else "manual" }
          let c := st.customer
          (some bk,
           { bookings := st.bookings ++ [bk],
             customer :=
               { c with
                  total_visits := c.total_visits + 1,
                  total_spent := c.total_spent + info.2,
                  last_visit_date := some start_time } })

/-- Concrete conversation for counterexamples: flagged for a follow-up
that is already due, with pre-existing notes. -/
def convEx : Conversation :=
  { id := 7, customer_id := 1, promotion_id := some 3,
    call_type := "promotional", call_status := "completed",
    customer_response := some "callback", notes := some "call me",
    follow_up_required := true, follow_up_date := some 0,
    twilio_call_sid := none }

/-! ## Helper lemmas for selection -/

theorem head_insertDescBy (score : Promotion → ℚ) (a : Promotion)
    (l : List Promotion) :
    (insertDescBy score a l).head? =
      match l.head? with
      | none => some a
      | some b => if score a < score b then some b else some a := by
  cases l with
  | nil => rfl
  | cons b bs =>
      by_cases hc : score a < score b
      · simp [insertDescBy, hc]
      · simp [insertDescBy, hc]

theorem head_sortDescBy (score : Promotion → ℚ) (l : List Promotion) :
    (sortDescBy score l).head? = firstMaxFold score l := by
  induction l with
  | nil => rfl
  | cons a l ih =>
      simp only [sortDescBy, firstMaxFold, head_insertDescBy, ih]

theorem firstMaxFold_eq_none_iff (score : Promotion → ℚ)
    (l : List Promotion) : firstMaxFold score l = none ↔ l = [] := by
  cases l with
  | nil => simp [firstMaxFold]
  | cons a l =>
      simp only [firstMaxFold]
      cases firstMaxFold score l with
      | none => simp
      | some b =>
          by_cases hc : score a < score b <;> simp [hc]

theorem firstMaxFold_mem_max (score : Promotion → ℚ) (l : List Promotion)
    (p : Promotion) (h : firstMaxFold score l = some p) :
    p ∈ l ∧ ∀ q ∈ l, score q ≤ score p := by
  induction l generalizing p with
  | nil => simp [firstMaxFold] at h
  | cons a l ih =>
      simp only [firstMaxFold] at h
      cases hl : firstMaxFold score l with
      | none =>
          have hnil : l = [] := (firstMaxFold_eq_none_iff score l).mp hl
          subst hnil
          simp only [hl] at h
          cases h
          simp
      | some b =>
          simp only [hl] at h
          obtain ⟨hbmem, hbmax⟩ := ih b hl
          by_cases hc : score a < score b
          · rw [if_pos hc] at h
            cases h
            refine ⟨List.mem_cons_of_mem _ hbmem, ?_⟩
            intro q hq
            rcases List.mem_cons.mp hq with hq | hq
            · exact hq ▸ le_of_lt hc
            · exact hbmax q hq
          · rw [if_neg hc] at h
            cases h
            refine ⟨List.mem_cons_self _ _, ?_⟩
            intro q hq
            rcases List.mem_cons.mp hq with hq | hq
            · exact hq ▸ le_refl _
            · exact le_trans (hbmax q hq) (not_lt.mp hc)

theorem find?_congrOn {α : Type} (f g : α → Bool) (l : List α)
    (h : ∀ x ∈ l, f x = g x) : l.find? f = l.find? g := by
  induction l with
  | nil => rfl
  | cons a l ih =>
      have ha := h a (List.mem_cons_self _ _)
      simp only [List.find?]
      rw [ha]
      cases g a
      · exact ih fun x hx => h x (List.mem_cons_of_mem _ hx)
      · rfl

theorem firstMaxFold_eq_selectBestSpec (score : Promotion → ℚ)
    (l : List Promotion) : firstMaxFold score l = selectBestSpec score l := by
  induction l with
  | nil => rfl
  | cons a l ih =>
      simp only [firstMaxFold, selectBestSpec]
      cases hl : firstMaxFold score l with
      | none =>
          have hnil : l = [] := (firstMaxFold_eq_none_iff score l).mp hl
          subst hnil
          simp only [hl]
          simp [List.find?]
      | some b =>
          simp only [hl]
          obtain ⟨hbmem, hbmax⟩ := firstMaxFold_mem_max score l b hl
          by_cases hc : score a < score b
          · rw [if_pos hc]
            have hfa : ((a :: l).all fun q => decide (score q ≤ score a)) = false := by
              apply Bool.eq_false_iff.mpr
              intro hall
              rw [List.all_eq_true] at hall
              have hb := hall b (List.mem_cons_of_mem _ hbmem)
              rw [decide_eq_true_eq] at hb
              exact absurd hb (not_le.mpr hc)
            rw [List.find?_cons]
            simp only [hfa]
            have hcongr :
                List.find? (fun p => (a :: l).all fun q => decide (score q ≤ score p)) l
                  = List.find? (fun p => l.all fun q => decide (score q ≤ score p)) l := by
              apply find?_congrOn
              intro x hx
              by_cases hpx : (l.all fun q => decide (score q ≤ score x)) = true
              · have hbx : score b ≤ score x := by
                  simp only [List.all_eq_true, decide_eq_true_eq] at hpx
                  exact hpx b hbmem
                have hax : score a ≤ score x := le_trans (le_of_lt hc) hbx
                rw [List.all_cons, hpx]
                simp [hax]
              · have hnx : (l.all fun q => decide (score q ≤ score x)) = false :=
                  Bool.eq_false_iff.mpr hpx
                rw [List.all_cons, hnx, Bool.and_false]
            rw [hcongr]
            rw [show List.find? (fun p => l.all fun q => decide (score q ≤ score p)) l
                  = selectBestSpec score l from rfl]
            rw [← ih, hl]
          · rw [if_neg hc]
            have hfa : ((a :: l).all fun q => decide (score q ≤ score a)) = true := by
              simp only [List.all_cons, List.all_eq_true, Bool.and_eq_true,
                decide_eq_true_eq]
              exact ⟨le_refl _, fun q hq => le_trans (hbmax q hq) (not_lt.mp hc)⟩
            rw [List.find?_cons]
            simp only [hfa]

theorem capBlocked_update (p : Promotion) (m : Nat) :
    capBlocked { p with max_uses := some m } =
      decide (m ≠ 0 ∧ m ≤ p.current_uses) := rfl

theorem priorEngaged_update (convs : List Conversation) (c : Customer)
    (p : Promotion) (x : Option Nat) :
    priorEngagedConversation convs c { p with max_uses := x } =
      priorEngagedConversation convs c p := rfl

theorem daysBlocked_update (now : ℤ) (c : Customer) (p : Promotion)
    (x : Option Nat) :
    daysBlocked now c { p with max_uses := x } = daysBlocked now c p := rfl

theorem segmentsBlocked_update (now : ℤ) (c : Customer) (p : Promotion)
    (x : Option Nat) :
    segmentsBlocked now c { p with max_uses := x } =
      segmentsBlocked now c p := rfl

theorem servicesBlocked_update (c : Customer) (p : Promotion)
    (x : Option Nat) :
    servicesBlocked c { p with max_uses := x } = servicesBlocked c p := rfl

/-! ## Claim theorems -/

/-- C4 (counterexample): with a cap of 5 fully used and every other
score contribution zero, the source score is -10 (divisor 5), while
the claimed formula with divisor max(max_uses, 1000) gives -1/20: the
claim that the divisor is never smaller than 1000 is false on the
code. -/
theorem C4_counterexample :
    pEx.max_uses = some 5 ∧ pEx.current_uses = 5 ∧
    calculate_promotion_score 0 cEx pEx = -10 ∧
    calculate_promotion_score_specC4 0 cEx pEx = -(1/20) ∧
    calculate_promotion_score 0 cEx pEx ≠
      calculate_promotion_score_specC4 0 cEx pEx := by
  have h1 : calculate_promotion_score 0 cEx pEx = -10 := by
    norm_num [calculate_promotion_score, cEx, pEx, pyOrNat,
      analyze_customer_segment, daysBetween, LAPSED_CUSTOMER, NEW_CUSTOMER,
      VIP_CUSTOMER, REGULAR_CUSTOMER, PRICE_SENSITIVE, SERVICE_SPECIFIC]
    intro h
    exact absurd h (by decide)
  have h2 : calculate_promotion_score_specC4 0 cEx pEx = -(1/20) := by
    norm_num [calculate_promotion_score_specC4, cEx, pEx, pyOrNat,
      analyze_customer_segment, daysBetween, LAPSED_CUSTOMER, NEW_CUSTOMER,
      VIP_CUSTOMER, REGULAR_CUSTOMER, PRICE_SENSITIVE, SERVICE_SPECIFIC]
    intro h
    exact absurd h (by decide)
  refine ⟨rfl, rfl, h1, h2, ?_⟩
  rw [h1, h2]
  norm_num

/-- C4 (amended): the saturation penalty subtracted from the promotion
score is 10 * current_uses / max_uses whenever a nonzero usage cap is
set (the source divisor is `max(max_uses or 1000, 1)`, so the cap
itself is the divisor even below 1000); the 1000 divisor applies only
when the cap is NULL or zero.  Stated against the score at zero uses,
which carries no penalty. -/
theorem C4_amended (now : ℤ) (c : Customer) (p : Promotion) :
    (∀ m : Nat, p.max_uses = some m → m ≠ 0 →
      calculate_promotion_score now c p =
        calculate_promotion_score now c { p with current_uses := 0 } -
          (p.current_uses : ℚ) / (m : ℚ) * 10) ∧
    (p.max_uses = none →
      calculate_promotion_score now c p =
        calculate_promotion_score now c { p with current_uses := 0 } -
          (p.current_uses : ℚ) / 1000 * 10) ∧
    (p.max_uses = some 0 →
      calculate_promotion_score now c p =
        calculate_promotion_score now c { p with current_uses := 0 } -
          (p.current_uses : ℚ) / 1000 * 10) := by
  refine ⟨?_, ?_, ?_⟩
  · intro m hm hm0
    have hmax : max m 1 = m := Nat.max_eq_left (Nat.one_le_iff_ne_zero.mpr hm0)
    simp only [calculate_promotion_score, pyOrNat, hm, ne_eq, hm0,
      not_false_eq_true, if_true, hmax, Nat.cast_zero, zero_div, zero_mul,
      sub_zero]
    ring
  · intro hm
    simp only [calculate_promotion_score, pyOrNat, hm, Nat.cast_zero,
      zero_div, zero_mul, sub_zero]
    norm_num
    ring
  · intro hm
    simp only [calculate_promotion_score, pyOrNat, hm, ne_eq,
      not_true_eq_false, if_false, Nat.cast_zero, zero_div, zero_mul,
      sub_zero]
    norm_num
    ring

/-- C4 (witness): the amended statement applied to the concrete
promotion with cap 5 and 5 uses. -/
theorem C4_witness :
    calculate_promotion_score 0 cEx pEx =
      calculate_promotion_score 0 cEx { pEx with current_uses := 0 } -
        (pEx.current_uses : ℚ) / ((5 : ℕ) : ℚ) * 10 :=
  (C4_amended 0 cEx pEx).1 5 rfl (by decide)

/-- C7: select_best_promotion returns none exactly on the empty list
and otherwise the earliest-listed promotion among those of maximal
score (selectBestSpec); being a pure function of its inputs it is
deterministic. -/
theorem C7_select_best (now : ℤ) (c : Customer)
    (eligible : List Promotion) :
    select_best_promotion now c eligible =
      selectBestSpec (calculate_promotion_score now c) eligible ∧
    (eligible = [] → select_best_promotion now c eligible = none) := by
  constructor
  · cases eligible with
    | nil => rfl
    | cons a l =>
        simp only [select_best_promotion, List.isEmpty_cons, if_false,
          Bool.false_eq_true, head_sortDescBy, firstMaxFold_eq_selectBestSpec]
  · intro h
    subst h
    rfl

/-- C7 (witness): the empty-input clause at a concrete customer. -/
theorem C7_witness : select_best_promotion 0 cEx [] = none :=
  (C7_select_best 0 cEx []).2 rfl

/-- C8 (counterexample): with one prior use, a promotion whose cap is 0
is treated as uncapped by the Python truthiness guard, so the customer
is eligible; raising the cap to 1 activates the guard
(current_uses >= max_uses) and removes the customer, refuting the claim
that raising max_uses never removes an eligible customer. -/
theorem C8_counterexample :
    is_customer_eligible 0 [] cEx
        { pEx with max_uses := some 0, current_uses := 1 } = true ∧
    is_customer_eligible 0 [] cEx
        { pEx with max_uses := some 1, current_uses := 1 } = false ∧
    (0 : ℕ) < 1 := by
  refine ⟨?_, ?_, Nat.zero_lt_one⟩ <;> rfl

/-- C8 (amended): for positive cap values the claim holds — when a
customer is eligible at cap m with 0 < m, they stay eligible at every
cap value of at least m, all other fields unchanged (only the
usage-cap guard reads max_uses, and it is monotone for positive
caps). -/
theorem C8_amended (now : ℤ) (convs : List Conversation) (c : Customer)
    (p : Promotion) (m m' : Nat) (h0 : 0 < m) (hle : m ≤ m')
    (helig : is_customer_eligible now convs c
      { p with max_uses := some m } = true) :
    is_customer_eligible now convs c { p with max_uses := some m' } = true := by
  simp only [is_customer_eligible, capBlocked_update, priorEngaged_update,
    daysBlocked_update, segmentsBlocked_update, servicesBlocked_update,
    decide_eq_true_eq] at helig ⊢
  have hcap : ¬(m ≠ 0 ∧ m ≤ p.current_uses) := by
    intro hP
    rw [if_pos hP] at helig
    cases helig
  rw [if_neg hcap] at helig
  have hcur : p.current_uses < m := by
    by_contra hge
    exact hcap ⟨Nat.pos_iff_ne_zero.mp h0, Nat.le_of_not_lt hge⟩
  have hcap' : ¬(m' ≠ 0 ∧ m' ≤ p.current_uses) := by
    rintro ⟨-, hle'⟩
    exact absurd (lt_of_lt_of_le hcur hle) (not_lt.mpr hle')
  rw [if_neg hcap']
  exact helig

/-- C8 (witness): the amended statement at a concrete unused promotion,
raising the cap from 5 to 6. -/
theorem C8_witness :
    (0 : ℕ) < 5 ∧ 5 ≤ 6 ∧
    is_customer_eligible 0 [] cEx
      { { pEx with current_uses := 0 } with max_uses := some 6 } = true :=
  ⟨by decide, by decide,
   C8_amended 0 [] cEx { pEx with current_uses := 0 } 5 6 (by decide)
     (by decide) (by rfl)⟩

/-- C2: a scheduled campaign run whose daily dispatched count has
reached MAX_CALLS_PER_DAY creates no Conversations and returns
gracefully, and otherwise the run creates at most
min(10, MAX_CALLS_PER_DAY - today_calls) new Conversations. -/
theorem C2_daily_cap (now : ℤ) (todayCalls maxCallsPerDay : Nat)
    (eligibleCustomers : List Customer)
    (eligiblePromos : Customer → List Promotion) :
    (maxCallsPerDay ≤ todayCalls →
      run_promotional_campaigns now todayCalls maxCallsPerDay
        eligibleCustomers eligiblePromos = []) ∧
    (run_promotional_campaigns now todayCalls maxCallsPerDay
        eligibleCustomers eligiblePromos).length ≤
      min 10 (maxCallsPerDay - todayCalls) := by
  constructor
  · intro h
    simp [run_promotional_campaigns, h]
  · by_cases h : maxCallsPerDay ≤ todayCalls
    · simp [run_promotional_campaigns, h]
    · by_cases he : eligibleCustomers.isEmpty
      · simp [run_promotional_campaigns, h, he]
      · simp only [run_promotional_campaigns, if_neg h, he,
          Bool.false_eq_true, if_false]
        refine le_trans (List.length_filterMap_le _ _) ?_
        rw [List.length_take]
        exact min_le_left _ _

/-- C2 (witness): at cap 50 with 50 calls already made, a run over one
eligible customer creates nothing; a fresh day is bounded by the
session limit. -/
theorem C2_witness :
    run_promotional_campaigns 0 50 50 [cEx] (fun _ => [pEx]) = [] ∧
    (run_promotional_campaigns 0 0 50 [cEx] (fun _ => [pEx])).length ≤
      min 10 (50 - 0) :=
  ⟨(C2_daily_cap 0 50 50 [cEx] (fun _ => [pEx])).1 (by decide),
   (C2_daily_cap 0 0 50 [cEx] (fun _ => [pEx])).2⟩

/-- C3 (counterexample): with a non-wrapping configured band 12-14 and
quiet hours enabled, hour 15 lies outside the band and inside business
hours 9-18, yet _is_appropriate_call_time returns false (the source
test `DND_START_HOUR <= hour or hour < DND_END_HOUR` holds for every
hour when the band does not wrap midnight), refuting the claim for
such bands. -/
theorem C3_counterexample :
    inQuietBand 12 14 15 = false ∧
    ((9 : Nat) ≤ 15 ∧ (15 : Nat) < 18) ∧
    is_appropriate_call_time true 12 14 9 18 15 = false := by
  refine ⟨rfl, ⟨by decide, by decide⟩, rfl⟩

/-- C3 (amended): with quiet-hours enforcement enabled the gate always
returns false for hours inside the configured band; the business-hours
behaviour outside the band holds exactly for bands that wrap midnight
(quiet-end < quiet-start, as in the default 20-9 configuration).  With
enforcement disabled the gate is the business-hours test. -/
theorem C3_amended (dndStart dndEnd bhStart bhEnd hour : Nat) :
    (inQuietBand dndStart dndEnd hour = true →
      is_appropriate_call_time true dndStart dndEnd bhStart bhEnd hour =
        false) ∧
    (dndEnd < dndStart → inQuietBand dndStart dndEnd hour = false →
      is_appropriate_call_time true dndStart dndEnd bhStart bhEnd hour =
        (decide (bhStart ≤ hour) && decide (hour < bhEnd))) ∧
    (is_appropriate_call_time false dndStart dndEnd bhStart bhEnd hour =
      (decide (bhStart ≤ hour) && decide (hour < bhEnd))) := by
  refine ⟨?_, ?_, ?_⟩
  · intro hband
    have hcond : (decide (dndStart ≤ hour) || decide (hour < dndEnd)) = true := by
      simp only [inQuietBand] at hband
      split_ifs at hband with hwrap
      · simp only [Bool.and_eq_true] at hband
        simp [hband.1]
      · exact hband
    simp [is_appropriate_call_time, hcond]
  · intro hwrap hband
    have hcond : (decide (dndStart ≤ hour) || decide (hour < dndEnd)) = false := by
      simp only [inQuietBand, if_neg (not_le.mpr hwrap)] at hband
      exact hband
    simp [is_appropriate_call_time, hcond]
  · simp [is_appropriate_call_time]

/-- C3 (witness): the amended statement at the default configuration
(band 20-9, business hours 9-18), at hour 22 inside the band and hour
12 outside it. -/
theorem C3_witness :
    (inQuietBand 20 9 22 = true ∧
      is_appropriate_call_time true 20 9 9 18 22 = false) ∧
    ((9 : Nat) < 20 ∧ inQuietBand 20 9 12 = false ∧
      is_appropriate_call_time true 20 9 9 18 12 =
        (decide ((9 : Nat) ≤ 12) && decide ((12 : Nat) < 18))) :=
  ⟨⟨by decide, (C3_amended 20 9 9 18 22).1 (by decide)⟩,
   ⟨by decide, by decide,
    (C3_amended 20 9 9 18 12).2.1 (by decide) (by decide)⟩⟩

/-- C5 (counterexample): at a due follow-up, with the customer present
and not opted out and the time appropriate, a gateway call that yields
no call sid leaves follow_up_required set on the original conversation
even though the new follow-up Conversation has been created — the
source clears the flag only under `if call_sid:` — refuting the claim
that dispatch always clears the flag. -/
theorem C5_counterexample :
    cEx.opt_out_calls = false ∧
    convEx.follow_up_required = true ∧
    convEx.follow_up_date = some 0 ∧ (0 : ℤ) ≤ 100 ∧
    ((make_follow_up_call 100 true none (some cEx) convEx).2).isSome = true ∧
    (make_follow_up_call 100 true none (some cEx) convEx).1.follow_up_required
      = true := by
  refine ⟨rfl, rfl, rfl, by decide, rfl, rfl⟩

/-- C5 (amended): for a due follow-up whose customer exists and has not
opted out of calls: at an inappropriate time the follow-up date is
rescheduled exactly 2 hours (120 minutes) forward and nothing is
dispatched; at an appropriate time a new Conversation carrying the same
promotion reference is created, and follow_up_required on the original
is cleared exactly when the gateway returns a call sid (on gateway
failure the new Conversation exists but the original is unchanged). -/
theorem C5_amended (now : ℤ) (appropriate : Bool)
    (callSid : Option String) (c : Customer) (conv : Conversation)
    (hopt : c.opt_out_calls = false) :
    (appropriate = false →
      make_follow_up_call now appropriate callSid (some c) conv =
        ({ conv with follow_up_date := some (now + 120) }, none)) ∧
    (appropriate = true →
      ∃ nc, (make_follow_up_call now appropriate callSid (some c) conv).2 =
          some nc ∧
        nc.promotion_id = conv.promotion_id ∧
        nc.call_type = "follow_up" ∧
        (∀ sid, callSid = some sid →
          (make_follow_up_call now appropriate callSid (some c) conv).1 =
            { conv with follow_up_required := false } ∧
          nc.twilio_call_sid = some sid) ∧
        (callSid = none →
          (make_follow_up_call now appropriate callSid (some c) conv).1 =
            conv)) := by
  constructor
  · intro ha
    subst ha
    simp [make_follow_up_call, hopt]
  · intro ha
    subst ha
    cases callSid with
    | none =>
        refine ⟨log_call_initiated c.id conv.promotion_id "follow_up" none,
          ?_, rfl, rfl, ?_, ?_⟩
        · simp [make_follow_up_call, hopt]
        · intro sid hsid
          cases hsid
        · intro _
          simp [make_follow_up_call, hopt]
    | some s =>
        refine ⟨{ log_call_initiated c.id conv.promotion_id "follow_up" none
            with twilio_call_sid := some s }, ?_, rfl, rfl, ?_, ?_⟩
        · simp [make_follow_up_call, hopt]
        · intro sid hsid
          cases hsid
          exact ⟨by simp [make_follow_up_call, hopt], rfl⟩
        · intro hnone
          cases hnone

/-- C5 (witness): the inappropriate-time clause at concrete inputs —
the follow-up is pushed 120 minutes forward with no dispatch. -/
theorem C5_witness :
    cEx.opt_out_calls = false ∧
    make_follow_up_call 0 false none (some cEx) convEx =
      ({ convEx with follow_up_date := some (0 + 120) }, none) :=
  ⟨rfl, (C5_amended 0 false none cEx convEx rfl).1 rfl⟩

/-- C6 (counterexample): an unrecognized digit maps to unknown and
leaves the customer untouched, but the response logging is not free of
conversation side effects: pre-existing notes are overwritten with NULL
and a set follow_up_required flag is reset to false, contradicting "no
conversation state change beyond the log". -/
theorem C6_counterexample :
    responseMap "5" = "unknown" ∧
    convEx.follow_up_required = true ∧
    convEx.notes = some "call me" ∧
    (handle_gather_response "5" convEx cEx).2 = cEx ∧
    (handle_gather_response "5" convEx cEx).1.follow_up_required = false ∧
    (handle_gather_response "5" convEx cEx).1.notes = none := by
  refine ⟨rfl, rfl, rfl, rfl, rfl, rfl⟩

/-- C6 (amended): the digit table is exactly {1: booked, 2: interested,
3: callback, 9: remove_from_list}; every other digit maps to unknown
and changes no customer state; outcome remove_from_list sets the
customer call opt-out flag.  Logging any response, unknown included,
records the outcome on the conversation and also resets its notes,
follow_up_required and follow_up_date fields to their defaults. -/
theorem C6_amended (digits : String) (conv : Conversation) (c : Customer) :
    (responseMap "1" = "booked" ∧ responseMap "2" = "interested" ∧
     responseMap "3" = "callback" ∧ responseMap "9" = "remove_from_list") ∧
    (digits ≠ "1" → digits ≠ "2" → digits ≠ "3" → digits ≠ "9" →
      responseMap digits = "unknown" ∧
      (handle_gather_response digits conv c).2 = c) ∧
    ((handle_gather_response digits conv c).1 =
      { conv with
          customer_response := some (responseMap digits),
          notes := none,
          follow_up_required := false,
          follow_up_date := none }) ∧
    ((handle_gather_response "9" conv c).2 = { c with opt_out_calls := true }) := by
  refine ⟨⟨rfl, rfl, rfl, rfl⟩, ?_, rfl, ?_⟩
  · intro h1 h2 h3 h9
    have hmap : responseMap digits = "unknown" := by
      simp [responseMap, h1, h2, h3, h9]
    refine ⟨hmap, ?_⟩
    show update_customer_preferences c (responseMap digits) = c
    rw [hmap, update_customer_preferences, if_neg (by decide)]
  · show update_customer_preferences c (responseMap "9") =
      { c with opt_out_calls := true }
    rw [update_customer_preferences, if_pos (by decide)]

/-- C6 (witness): the unknown-digit clause at the digit 5. -/
theorem C6_witness :
    responseMap "5" = "unknown" ∧
    (handle_gather_response "5" convEx cEx).2 = cEx :=
  (C6_amended "5" convEx cEx).2.1 (by decide) (by decide) (by decide)
    (by decide)

/-- C9: logging a not_interested response sets the customer call
opt-out flag exactly as remove_from_list does (the source guard is
`response in ["not_interested", "remove_from_list"]`), so a customer
who declines one offer is excluded from future call campaigns even
though the spec table reserves opt-out for remove_from_list. -/
theorem C9_not_interested_opts_out (c : Customer) :
    update_customer_preferences c "not_interested" =
      { c with opt_out_calls := true } ∧
    update_customer_preferences c "not_interested" =
      update_customer_preferences c "remove_from_list" := by
  constructor
  · rw [update_customer_preferences, if_pos (by decide)]
  · rw [update_customer_preferences, if_pos (by decide),
      update_customer_preferences, if_pos (by decide)]

/-- C1: book_appointment is two-phase.  When the backend call raises or
returns no booking id the result is None with the database state
untouched; any None result leaves the state untouched; and a returned
Booking implies the backend confirmed (supplying the external booking
id), the Booking row was appended, and the customer visit count, total
spend and last-visit date were updated. -/
theorem C1_two_phase (backend : Except Unit (Option String))
    (services : Except Unit (List Service)) (service_id : String)
    (start_time : ℤ) (duration_minutes : Nat)
    (conversation_id : Option Nat) (st : DBState) :
    ((backend = Except.error () ∨ backend = Except.ok none) →
      book_appointment backend services service_id start_time
        duration_minutes conversation_id st = (none, st)) ∧
    ((book_appointment backend services service_id start_time
        duration_minutes conversation_id st).1 = none →
      (book_appointment backend services service_id start_time
        duration_minutes conversation_id st).2 = st) ∧
    (∀ bk st2,
      book_appointment backend services service_id start_time
        duration_minutes conversation_id st = (some bk, st2) →
      (∃ bid, backend = Except.ok (some bid) ∧
        bk.external_booking_id = bid) ∧
      st2.bookings = st.bookings ++ [bk] ∧
      st2.customer.total_visits = st.customer.total_visits + 1 ∧
      st2.customer.total_spent = st.customer.total_spent + bk.price ∧
      st2.customer.last_visit_date = some start_time) := by
  refine ⟨?_, ?_, ?_⟩
  · rintro (h | h) <;> subst h <;> rfl
  · intro h
    match backend with
    | .error _ => rfl
    | .ok none => rfl
    | .ok (some bid) =>
        match services with
        | .error _ => rfl
        | .ok svcs => simp [book_appointment] at h
  · intro bk st2 h
    match backend with
    | .error _ => simp [book_appointment] at h
    | .ok none => simp [book_appointment] at h
    | .ok (some bid) =>
        match services with
        | .error _ => simp [book_appointment] at h
        | .ok svcs =>
            simp only [book_appointment, Prod.mk.injEq, Option.some.injEq]
              at h
            obtain ⟨hbk, hst⟩ := h
            subst hbk
            subst hst
            exact ⟨⟨bid, rfl, rfl⟩, rfl, rfl, rfl, rfl⟩

/-- C1 (witness): the failure clause at a concrete failing backend and
a concrete state; the operation returns None and the state is
unchanged. -/
theorem C1_witness :
    book_appointment (Except.error ()) (Except.ok []) "svc" 0 30 none
      { bookings := [], customer := cEx } =
      (none, { bookings := [], customer := cEx }) :=
  (C1_two_phase (Except.error ()) (Except.ok []) "svc" 0 30 none
    { bookings := [], customer := cEx }).1 (Or.inl rfl)

/-- C10: get_available_slots turns a raised backend exception into the
empty list (the source wraps the whole body in try/except and returns
[]), which is the same output a genuinely free-of-availability period
produces — here a weekend-only search range with no bookings at all —
so the caller cannot tell the two apart. -/
theorem C10_errors_empty (service_duration startDay endDay openMin
    closeMin : Nat) (stylist_id : Option String) (e : Unit) :
    get_available_slots (Except.error e) service_duration startDay endDay
      openMin closeMin stylist_id = [] ∧
    get_available_slots (Except.ok []) 30 5 6 540 1080 none = [] := by
  constructor
  · rfl
  · rfl
